import Mathlib

/-!
Shallow embedding of `src/ast2ram/provenance/TranslationStrategy.cpp` from the
souffle Datalog compiler, together with the surrounding data model described by
the specification (translator context, symbol table, value index, the four
translator roles and the two translation modes).

The source file defines the Provenance translation strategy: a stateless,
default-constructed factory with four const member functions.  Each factory
operation is a single `return mk<...>(...)` statement, where `mk<T>` is
souffle's alias for `std::make_unique<T>`:

- `createUnitTranslator()` constructs `provenance::UnitTranslator`;
- `createClauseTranslator(context, symbolTable)` constructs
  `provenance::ClauseTranslator(context, symbolTable)`;
- `createConstraintTranslator(context, symbolTable, index)` constructs
  `ast2ram::seminaive::ConstraintTranslator(context, symbolTable, index)`;
- `createValueTranslator(context, symbolTable, index)` constructs
  `ast2ram::seminaive::ValueTranslator(context, symbolTable, index)`.

Note that the last two construct translators from the `seminaive` (Plain)
namespace, not the `provenance` namespace.  The embedding records, for every
constructed translator, which namespace its concrete class lives in (`Mode`)
and which arguments its constructor stored.
-/

/-- The two translation modes of the strategy abstraction.  A translator value
carries the mode of the concrete C++ class that was constructed for it:
`Mode.seminaive` for classes of `souffle::ast2ram::seminaive` (the Plain mode),
`Mode.provenance` for classes of `souffle::ast2ram::provenance`. -/
inductive Mode : Type
  | seminaive : Mode
  | provenance : Mode
deriving DecidableEq, Repr

/-- Modelled from the spec: the TranslatorContext (read-only whole-program
facts).  Its header is not under src/ and the factory only stores a const
reference to it, so it is represented abstractly by an identity. -/
structure TranslatorContext : Type where
  ctxId : Nat
deriving DecidableEq, Repr

/-- Modelled from the spec: the SymbolTable (string interning table).  Its
header is not under src/ and the factory only forwards a reference to it to
translator constructors, so it is represented abstractly by an identity. -/
structure SymbolTable : Type where
  tabId : Nat
deriving DecidableEq, Repr

/-- Modelled from the spec: the per-clause ValueIndex (variable to RAM-location
map).  Its header is not under src/ and the factory only stores a const
reference to it, so it is represented abstractly by an identity. -/
structure ValueIndex : Type where
  idxId : Nat
deriving DecidableEq, Repr

/-- A unit translator object: the whole-program translator role.  The concrete
C++ class constructed for it is recorded by `mode`; its constructor takes no
arguments. -/
structure UnitTranslator : Type where
  mode : Mode
deriving DecidableEq, Repr

/-- A clause translator object.  The constructor stores references to the
translator context and the symbol table it was given; `mode` records the
namespace of the concrete class constructed. -/
structure ClauseTranslator : Type where
  mode : Mode
  context : TranslatorContext
  symbolTable : SymbolTable
deriving DecidableEq, Repr

/-- A constraint translator object.  The constructor stores references to the
translator context, the symbol table and the value index it was given; `mode`
records the namespace of the concrete class constructed. -/
structure ConstraintTranslator : Type where
  mode : Mode
  context : TranslatorContext
  symbolTable : SymbolTable
  index : ValueIndex
deriving DecidableEq, Repr

/-- A value translator object.  The constructor stores references to the
translator context, the symbol table and the value index it was given; `mode`
records the namespace of the concrete class constructed. -/
structure ValueTranslator : Type where
  mode : Mode
  context : TranslatorContext
  symbolTable : SymbolTable
  index : ValueIndex
deriving DecidableEq, Repr

/-- Embedding of souffle's `Own<T>` (an owning pointer, `std::unique_ptr`):
either null or an owned value. -/
abbrev Own (α : Type) : Type := Option α

/-- Embedding of souffle's `mk<T>(args...)` (`std::make_unique`): constructs
the object and wraps it in a never-null owning pointer. -/
def mkOwn {α : Type} (a : α) : Own α :=
  some a

/-- Constructor of `provenance::UnitTranslator` (called by the strategy via
`mk<UnitTranslator>()`): a unit translator of the provenance namespace. -/
def provenance.mkUnitTranslator : UnitTranslator :=
  { mode := Mode.provenance }

/-- Constructor of `provenance::ClauseTranslator(context, symbolTable)`: a
clause translator of the provenance namespace storing the two references. -/
def provenance.mkClauseTranslator (context : TranslatorContext)
    (symbolTable : SymbolTable) : ClauseTranslator :=
  { mode := Mode.provenance, context := context, symbolTable := symbolTable }

/-- Constructor of `seminaive::ConstraintTranslator(context, symbolTable,
index)`: a constraint translator of the seminaive (Plain) namespace storing
the three references. -/
def seminaive.mkConstraintTranslator (context : TranslatorContext)
    (symbolTable : SymbolTable) (index : ValueIndex) : ConstraintTranslator :=
  { mode := Mode.seminaive, context := context, symbolTable := symbolTable,
    index := index }

/-- Constructor of `seminaive::ValueTranslator(context, symbolTable, index)`:
a value translator of the seminaive (Plain) namespace storing the three
references. -/
def seminaive.mkValueTranslator (context : TranslatorContext)
    (symbolTable : SymbolTable) (index : ValueIndex) : ValueTranslator :=
  { mode := Mode.seminaive, context := context, symbolTable := symbolTable,
    index := index }

/-- Embedding of `souffle::ast2ram::provenance::TranslationStrategy`: the
class is default-constructed and declares no data members, so the structure
has no fields. -/
structure provenance.TranslationStrategy : Type where

/-- Embedding of `provenance::TranslationStrategy::createUnitTranslator`:
`return mk<UnitTranslator>();` (a const member function). -/
def provenance.TranslationStrategy.createUnitTranslator
    (_s : provenance.TranslationStrategy) : Own UnitTranslator :=
  mkOwn provenance.mkUnitTranslator

/-- Embedding of `provenance::TranslationStrategy::createClauseTranslator`:
`return mk<ClauseTranslator>(context, symbolTable);` (const member). -/
def provenance.TranslationStrategy.createClauseTranslator
    (_s : provenance.TranslationStrategy) (context : TranslatorContext)
    (symbolTable : SymbolTable) : Own ClauseTranslator :=
  mkOwn (provenance.mkClauseTranslator context symbolTable)

/-- Embedding of `provenance::TranslationStrategy::createConstraintTranslator`:
`return mk<ast2ram::seminaive::ConstraintTranslator>(context, symbolTable,
index);` (const member). -/
def provenance.TranslationStrategy.createConstraintTranslator
    (_s : provenance.TranslationStrategy) (context : TranslatorContext)
    (symbolTable : SymbolTable) (index : ValueIndex) : Own ConstraintTranslator :=
  mkOwn (seminaive.mkConstraintTranslator context symbolTable index)

/-- Embedding of `provenance::TranslationStrategy::createValueTranslator`:
`return mk<ast2ram::seminaive::ValueTranslator>(context, symbolTable,
index);` (const member). -/
def provenance.TranslationStrategy.createValueTranslator
    (_s : provenance.TranslationStrategy) (context : TranslatorContext)
    (symbolTable : SymbolTable) (index : ValueIndex) : Own ValueTranslator :=
  mkOwn (seminaive.mkValueTranslator context symbolTable index)

/-- Modelled from the spec: the Plain (semi-naive) TranslationStrategy, whose
source file is not under src/.  The spec states the Plain factory follows the
same pattern and produces the Plain-mode translator set; in particular its
constraint and value translators are the seminaive classes. -/
structure seminaive.TranslationStrategy : Type where

/-- Modelled from the spec: the Plain strategy's createConstraintTranslator
constructs the seminaive ConstraintTranslator from the same three
arguments. -/
def seminaive.TranslationStrategy.createConstraintTranslator
    (_s : seminaive.TranslationStrategy) (context : TranslatorContext)
    (symbolTable : SymbolTable) (index : ValueIndex) : Own ConstraintTranslator :=
  mkOwn (seminaive.mkConstraintTranslator context symbolTable index)

/-- Modelled from the spec: the Plain strategy's createValueTranslator
constructs the seminaive ValueTranslator from the same three arguments. -/
def seminaive.TranslationStrategy.createValueTranslator
    (_s : seminaive.TranslationStrategy) (context : TranslatorContext)
    (symbolTable : SymbolTable) (index : ValueIndex) : Own ValueTranslator :=
  mkOwn (seminaive.mkValueTranslator context symbolTable index)

/-- Selector for one of the four factory operations of the strategy. -/
inductive CreateOp : Type
  | unitOp : CreateOp
  | clauseOp : CreateOp
  | constraintOp : CreateOp
  | valueOp : CreateOp
deriving DecidableEq, Repr

/-- A translator of any of the four roles (the result of one factory call). -/
inductive AnyTranslator : Type
  | unitT : UnitTranslator → AnyTranslator
  | clauseT : ClauseTranslator → AnyTranslator
  | constraintT : ConstraintTranslator → AnyTranslator
  | valueT : ValueTranslator → AnyTranslator
deriving DecidableEq, Repr

/-- The mode of the concrete class behind a translator of any role. -/
def AnyTranslator.mode : AnyTranslator → Mode
  | AnyTranslator.unitT u => u.mode
  | AnyTranslator.clauseT c => c.mode
  | AnyTranslator.constraintT c => c.mode
  | AnyTranslator.valueT v => v.mode

/-- A heap-allocated object together with its address, modelling the fresh
allocation performed by `mk<T>` (`std::make_unique`). -/
structure Allocated (α : Type) : Type where
  addr : Nat
  val : α
deriving DecidableEq, Repr

/-- The mutable world visible to one factory call: the strategy object, the
caller-owned context, symbol table and value index that are passed by
reference, and the allocator (next fresh address).  The C++ factory methods
are const and their bodies only call `mk<T>`, so allocation is the only state
they can touch. -/
structure MachineState : Type where
  strategy : provenance.TranslationStrategy
  context : TranslatorContext
  symbolTable : SymbolTable
  index : ValueIndex
  nextAddr : Nat

/-- One factory call on the machine state: constructs the translator that the
selected operation constructs in the source (provenance Unit/Clause,
seminaive Constraint/Value), at a fresh address, advancing the allocator and
leaving every other component of the state unchanged. -/
def stepCreate (op : CreateOp) (m : MachineState) :
    Allocated AnyTranslator × MachineState :=
  match op with
  | CreateOp.unitOp =>
      (⟨m.nextAddr, AnyTranslator.unitT provenance.mkUnitTranslator⟩,
        { m with nextAddr := m.nextAddr + 1 })
  | CreateOp.clauseOp =>
      (⟨m.nextAddr, AnyTranslator.clauseT
          (provenance.mkClauseTranslator m.context m.symbolTable)⟩,
        { m with nextAddr := m.nextAddr + 1 })
  | CreateOp.constraintOp =>
      (⟨m.nextAddr, AnyTranslator.constraintT
          (seminaive.mkConstraintTranslator m.context m.symbolTable m.index)⟩,
        { m with nextAddr := m.nextAddr + 1 })
  | CreateOp.valueOp =>
      (⟨m.nextAddr, AnyTranslator.valueT
          (seminaive.mkValueTranslator m.context m.symbolTable m.index)⟩,
        { m with nextAddr := m.nextAddr + 1 })

/-- Running a sequence of factory calls, discarding the returned translators
and keeping the final machine state. -/
def runCreates (ops : List CreateOp) (m : MachineState) : MachineState :=
  match ops with
  | [] => m
  | op :: rest => runCreates rest (stepCreate op m).2

/-- Running a sequence of factory calls and collecting every translator the
factory returned along the run, in order, together with the final state. -/
def runCreatesAll (ops : List CreateOp) (m : MachineState) :
    List (Allocated AnyTranslator) × MachineState :=
  match ops with
  | [] => ([], m)
  | op :: rest =>
      ((stepCreate op m).1 :: (runCreatesAll rest (stepCreate op m).2).1,
        (runCreatesAll rest (stepCreate op m).2).2)

/-- Helper: a factory call never changes the strategy object. -/
theorem stepCreate_strategy (op : CreateOp) (m : MachineState) :
    ((stepCreate op m).2).strategy = m.strategy := by
  cases op <;> rfl

/-- Helper: every factory call allocates at the current next-address. -/
theorem stepCreate_addr (op : CreateOp) (m : MachineState) :
    ((stepCreate op m).1).addr = m.nextAddr := by
  cases op <;> rfl

/-- Helper: every factory call advances the allocator by one. -/
theorem stepCreate_nextAddr (op : CreateOp) (m : MachineState) :
    ((stepCreate op m).2).nextAddr = m.nextAddr + 1 := by
  cases op <;> rfl

/-- Helper: every translator returned along a run is allocated at or above the
allocator value the run started from. -/
theorem runCreatesAll_addr_ge (ops : List CreateOp) (m : MachineState) :
    ∀ a ∈ (runCreatesAll ops m).1, m.nextAddr ≤ a.addr := by
  induction ops generalizing m with
  | nil =>
      intro a ha
      simp [runCreatesAll] at ha
  | cons op rest ih =>
      intro a ha
      simp only [runCreatesAll] at ha
      rcases List.mem_cons.mp ha with h | h
      · rw [h, stepCreate_addr]
      · have h1 := ih (stepCreate op m).2 a h
        rw [stepCreate_nextAddr] at h1
        omega

/-- Helper: the mode of the translator produced by an operation does not
depend on the machine state the operation is run in. -/
theorem stepCreate_mode_const (op : CreateOp) (m m' : MachineState) :
    ((stepCreate op m).1).val.mode = ((stepCreate op m').1).val.mode := by
  cases op <;> rfl

/-- Helper: a sequence of factory calls never changes the strategy object. -/
theorem runCreates_strategy (ops : List CreateOp) (m : MachineState) :
    (runCreates ops m).strategy = m.strategy := by
  induction ops generalizing m with
  | nil => rfl
  | cons op rest ih =>
      calc (runCreates (op :: rest) m).strategy
          = (runCreates rest (stepCreate op m).2).strategy := rfl
        _ = ((stepCreate op m).2).strategy := ih (stepCreate op m).2
        _ = m.strategy := stepCreate_strategy op m

/-- C1: the claim that every translator produced by the Provenance strategy's
four factory operations belongs to the Provenance mode is false:
createConstraintTranslator constructs the seminaive (Plain) namespace's
ConstraintTranslator, shown here at a concrete input. -/
theorem provenance_constraint_translator_not_provenance_cex :
    Option.map ConstraintTranslator.mode
      (provenance.TranslationStrategy.mk.createConstraintTranslator ⟨0⟩ ⟨0⟩ ⟨0⟩) ≠
      some Mode.provenance := by
  decide

/-- C1 (amended): the Provenance strategy's factory produces a fixed mode
assignment: the Unit and Clause translators are of the Provenance mode, while
the Constraint and Value translators reuse the Plain (seminaive) mode's
classes. -/
theorem provenance_factory_mode_assignment (s : provenance.TranslationStrategy)
    (c : TranslatorContext) (t : SymbolTable) (i : ValueIndex) :
    Option.map UnitTranslator.mode s.createUnitTranslator = some Mode.provenance ∧
    Option.map ClauseTranslator.mode (s.createClauseTranslator c t) =
      some Mode.provenance ∧
    Option.map ConstraintTranslator.mode (s.createConstraintTranslator c t i) =
      some Mode.seminaive ∧
    Option.map ValueTranslator.mode (s.createValueTranslator c t i) =
      some Mode.seminaive :=
  ⟨rfl, rfl, rfl, rfl⟩

/-- C2: for every context, symbol table and value index, the constraint
translator returned by the Provenance strategy is the very translator the
Plain (semi-naive) strategy returns, so constraint lowering is structurally
identical under both strategies. -/
theorem provenance_constraint_translator_matches_plain
    (sp : provenance.TranslationStrategy) (ss : seminaive.TranslationStrategy)
    (c : TranslatorContext) (t : SymbolTable) (i : ValueIndex) :
    sp.createConstraintTranslator c t i = ss.createConstraintTranslator c t i :=
  rfl

/-- C3: createUnitTranslator of the Provenance strategy takes no inputs beyond
the strategy object itself, always succeeds (a total function), and returns a
non-null owned Unit Translator bound to the Provenance mode. -/
theorem provenance_createUnitTranslator_total (s : provenance.TranslationStrategy) :
    ∃ u : UnitTranslator,
      s.createUnitTranslator = some u ∧ u.mode = Mode.provenance :=
  ⟨provenance.mkUnitTranslator, rfl, rfl⟩

/-- C4: for every context and symbol table, createClauseTranslator of the
Provenance strategy succeeds and returns a non-null Clause Translator of the
Provenance mode holding exactly the context and symbol table it was given. -/
theorem provenance_createClauseTranslator_correct
    (s : provenance.TranslationStrategy) (c : TranslatorContext)
    (t : SymbolTable) :
    ∃ ct : ClauseTranslator,
      s.createClauseTranslator c t = some ct ∧
      ct.mode = Mode.provenance ∧ ct.context = c ∧ ct.symbolTable = t :=
  ⟨provenance.mkClauseTranslator c t, rfl, rfl, rfl, rfl⟩

/-- C5: for every context, symbol table and value index, the Provenance
strategy's createConstraintTranslator and createValueTranslator succeed and
return non-null translators storing exactly the context, symbol table and
value index that were passed in. -/
theorem provenance_constraint_value_translators_bound_to_index
    (s : provenance.TranslationStrategy) (c : TranslatorContext)
    (t : SymbolTable) (i : ValueIndex) :
    (∃ ct : ConstraintTranslator,
      s.createConstraintTranslator c t i = some ct ∧
      ct.context = c ∧ ct.symbolTable = t ∧ ct.index = i) ∧
    (∃ vt : ValueTranslator,
      s.createValueTranslator c t i = some vt ∧
      vt.context = c ∧ vt.symbolTable = t ∧ vt.index = i) :=
  ⟨⟨seminaive.mkConstraintTranslator c t i, rfl, rfl, rfl, rfl⟩,
    ⟨seminaive.mkValueTranslator c t i, rfl, rfl, rfl, rfl⟩⟩

/-- C6: every factory operation is a pure factory: after any create call the
strategy object, the translator context, the symbol table and the value index
of the machine state are unchanged; only the allocator has moved. -/
theorem provenance_factory_frame (op : CreateOp) (m : MachineState) :
    ((stepCreate op m).2).strategy = m.strategy ∧
    ((stepCreate op m).2).context = m.context ∧
    ((stepCreate op m).2).symbolTable = m.symbolTable ∧
    ((stepCreate op m).2).index = m.index := by
  cases op <;> exact ⟨rfl, rfl, rfl, rfl⟩

/-- C7: the factory is deterministic: two invocations of the same create
operation on the same strategy with equal arguments produce structurally
identical translators. -/
theorem provenance_factory_deterministic (s : provenance.TranslationStrategy)
    (c1 c2 : TranslatorContext) (t1 t2 : SymbolTable) (i1 i2 : ValueIndex)
    (hc : c1 = c2) (ht : t1 = t2) (hi : i1 = i2) :
    s.createUnitTranslator = s.createUnitTranslator ∧
    s.createClauseTranslator c1 t1 = s.createClauseTranslator c2 t2 ∧
    s.createConstraintTranslator c1 t1 i1 = s.createConstraintTranslator c2 t2 i2 ∧
    s.createValueTranslator c1 t1 i1 = s.createValueTranslator c2 t2 i2 := by
  subst hc
  subst ht
  subst hi
  exact ⟨rfl, rfl, rfl, rfl⟩

/-- C7 witness: the determinism theorem applied at concrete arguments. -/
theorem provenance_factory_deterministic_witness :
    provenance.TranslationStrategy.mk.createUnitTranslator =
      provenance.TranslationStrategy.mk.createUnitTranslator ∧
    provenance.TranslationStrategy.mk.createClauseTranslator ⟨0⟩ ⟨1⟩ =
      provenance.TranslationStrategy.mk.createClauseTranslator ⟨0⟩ ⟨1⟩ ∧
    provenance.TranslationStrategy.mk.createConstraintTranslator ⟨0⟩ ⟨1⟩ ⟨2⟩ =
      provenance.TranslationStrategy.mk.createConstraintTranslator ⟨0⟩ ⟨1⟩ ⟨2⟩ ∧
    provenance.TranslationStrategy.mk.createValueTranslator ⟨0⟩ ⟨1⟩ ⟨2⟩ =
      provenance.TranslationStrategy.mk.createValueTranslator ⟨0⟩ ⟨1⟩ ⟨2⟩ :=
  provenance_factory_deterministic provenance.TranslationStrategy.mk
    ⟨0⟩ ⟨0⟩ ⟨1⟩ ⟨1⟩ ⟨2⟩ ⟨2⟩ rfl rfl rfl

/-- C8: the claim that every sequence of create calls on a Provenance strategy
instance yields translators of one and the same mode is false: on the same
instance, createClauseTranslator yields a Provenance-mode translator while
createValueTranslator yields a seminaive (Plain) one — a mixture. -/
theorem provenance_factory_yields_mixed_modes_cex :
    Option.map ClauseTranslator.mode
      (provenance.TranslationStrategy.mk.createClauseTranslator ⟨0⟩ ⟨0⟩) ≠
    Option.map ValueTranslator.mode
      (provenance.TranslationStrategy.mk.createValueTranslator ⟨0⟩ ⟨0⟩ ⟨0⟩) := by
  decide

/-- C8 (amended): a Provenance strategy instance has no mutable state (the
strategy component of the machine state is never changed by any sequence of
create calls, and carries no data), and the mode each operation yields is
fixed for the instance's lifetime: it is the same no matter how many create
calls preceded it. -/
theorem provenance_strategy_lifetime_fixed (ops : List CreateOp)
    (m : MachineState) (op : CreateOp) :
    (runCreates ops m).strategy = m.strategy ∧
    m.strategy = provenance.TranslationStrategy.mk ∧
    ((stepCreate op (runCreates ops m)).1).val.mode =
      ((stepCreate op m).1).val.mode := by
  obtain ⟨⟨⟩, c, t, i, n⟩ := m
  exact ⟨runCreates_strategy ops _, rfl, stepCreate_mode_const op _ _⟩

/-- C9: each create call allocates a fresh, uniquely owned translator: along
any sequence of factory calls (same or different operations, adjacent or
not), the addresses of the returned translators are pairwise distinct, so two
create calls never return the same instance and no per-translator state is
shared through the factory. -/
theorem provenance_factory_allocates_fresh (ops : List CreateOp)
    (m : MachineState) :
    ((runCreatesAll ops m).1.map Allocated.addr).Nodup := by
  induction ops generalizing m with
  | nil => simp [runCreatesAll]
  | cons op rest ih =>
      simp only [runCreatesAll, List.map_cons, List.nodup_cons]
      refine ⟨?_, ih (stepCreate op m).2⟩
      intro hmem
      rcases List.mem_map.mp hmem with ⟨a, ha, haddr⟩
      have h1 := runCreatesAll_addr_ge rest (stepCreate op m).2 a ha
      rw [stepCreate_nextAddr] at h1
      rw [stepCreate_addr] at haddr
      omega

/-- C10: the Provenance strategy is stateless, so any two instances are
interchangeable: every create operation produces equal translators on equal
arguments regardless of which instance is used. -/
theorem provenance_strategies_interchangeable
    (s1 s2 : provenance.TranslationStrategy) (c : TranslatorContext)
    (t : SymbolTable) (i : ValueIndex) :
    s1.createUnitTranslator = s2.createUnitTranslator ∧
    s1.createClauseTranslator c t = s2.createClauseTranslator c t ∧
    s1.createConstraintTranslator c t i = s2.createConstraintTranslator c t i ∧
    s1.createValueTranslator c t i = s2.createValueTranslator c t i := by
  cases s1
  cases s2
  exact ⟨rfl, rfl, rfl, rfl⟩
